import Mathlib

/-!
Verification of the error taxonomy and boundary-translation pipeline of the
vet-booking monorepo.  The embedded code is the TypeScript in
`docs/how-to-guides/create-an-error.md` (the repository's authoritative
listing of `error-codes.ts`, `problem-details.type.ts`, `error-catalog.ts`,
`problem-details.ts`, `domain-to-problem.mapper.ts` and
`problem.exception-filter.ts`) together with the `DomainError` base class of
`docs/notes` (error best practices document).
-/

namespace PetProject

/-- A JavaScript runtime value, as far as the error pipeline inspects or
builds one.  Numbers are modelled as integers (every number the pipeline
itself produces is an integer status code).  `undefined` stands for
`undefined`, which is also what property access on a missing key yields. -/
inductive JsValue where
  | undefined : JsValue
  | nullv : JsValue
  | bool : Bool → JsValue
  | num : Int → JsValue
  | str : String → JsValue
  | arr : List JsValue → JsValue
  | obj : List (String × JsValue) → JsValue

/-- Property access `v[k]`: on an object, the first binding of the key
(the objects built by the pipeline have no duplicate keys); on anything
else, `undefined` (optional chaining is used at every access on a value
that could be null or undefined). -/
def getField : JsValue → String → JsValue
  | .obj fs, k => ((fs.find? (fun p => p.1 == k)).map Prod.snd).getD .undefined
  | _, _ => .undefined

/-- JavaScript truthiness, restricted to the modelled values. -/
def truthy : JsValue → Bool
  | .undefined => false
  | .nullv => false
  | .bool b => b
  | .num n => n != 0
  | .str s => s != ""
  | .arr _ => true
  | .obj _ => true

/-- `typeof v === "string"`. -/
def isStringV : JsValue → Bool
  | .str _ => true
  | _ => false

/-- Extracts the string payload; total, used only where a guard has already
established `isStringV`. -/
def asString : JsValue → String
  | .str s => s
  | _ => ""

/-- Strict equality `v === lit` against a string literal: only a string
with the same payload compares equal. -/
def strictEqStr (v : JsValue) (lit : String) : Bool :=
  match v with
  | .str s => s == lit
  | _ => false

/-- Extracts the integer payload; total, used only in statements about
fields known to be numbers. -/
def asNum : JsValue → Int
  | .num n => n
  | _ => 0

/-- A catalog row of `error-catalog.ts`:
`{ status: number; title: string; type: string; retryable?: boolean }`. -/
structure CatalogEntry where
  status : Int
  title : String
  type : String
  retryable : Option Bool
deriving Repr, DecidableEq

/-- The own string-keyed rows of the backend service's `ErrorCatalog`
object literal from `error-catalog.ts`; `none` means the literal has no
own property under that key (the full member lookup, prototype chain
included, is `catalogMember` below).  None of the three rows sets
`retryable`. -/
def ErrorCatalog : String → Option CatalogEntry
  | "PRODUCT_NOT_FOUND" =>
      some { status := 404, title := "Product not found",
             type := "/catalog/products/not-found", retryable := none }
  | "VALIDATION_FAILED" =>
      some { status := 400, title := "Invalid input",
             type := "/catalog/validation/failed", retryable := none }
  | "INTERNAL_ERROR" =>
      some { status := 500, title := "Internal Server Error",
             type := "/catalog/internal", retryable := none }
  | _ => none

/-- The catalog's `INTERNAL_ERROR` row (`ErrorCatalog.INTERNAL_ERROR`). -/
def INTERNAL_ERROR_entry : CatalogEntry :=
  { status := 500, title := "Internal Server Error",
    type := "/catalog/internal", retryable := none }

/-- The property names every plain object literal inherits from
`Object.prototype`; looking any of them up on `ErrorCatalog` yields an
inherited member (a function, or `Object.prototype` itself for
`__proto__`) that is truthy and neither `null` nor `undefined`. -/
def objectPrototypeKeys : List String :=
  ["constructor", "hasOwnProperty", "isPrototypeOf", "propertyIsEnumerable",
   "toLocaleString", "toString", "valueOf", "__proto__",
   "__defineGetter__", "__defineSetter__", "__lookupGetter__",
   "__lookupSetter__"]

/-- What a JS member access on the `ErrorCatalog` literal can produce: an
own catalog row, an inherited `Object.prototype` member, or
`undefined`. -/
inductive MemberLookup where
  | row : CatalogEntry → MemberLookup
  | inherited : MemberLookup
  | missing : MemberLookup
deriving Repr, DecidableEq

/-- `ErrorCatalog[code]` with the prototype chain: an own row for the
three literal keys, an inherited non-nullish member for the
`Object.prototype` names, `undefined` otherwise. -/
def catalogMember (code : String) : MemberLookup :=
  match ErrorCatalog code with
  | some en => .row en
  | none => if code ∈ objectPrototypeKeys then .inherited else .missing

/-- Catalog resolution as performed by `domain-to-problem.mapper.ts`:
`ErrorCatalog[e.code] ?? ErrorCatalog.INTERNAL_ERROR`.  The `??` fires
only on `undefined` (a missing member); an inherited prototype member is
not nullish and is returned as is.  Total, so resolution never throws. -/
def resolveMember (code : String) : MemberLookup :=
  match catalogMember code with
  | .missing => .row INTERNAL_ERROR_entry
  | m => m

/-- The `ProblemDetails` type of `problem-details.type.ts`.  `context` is a
`Record<string, unknown>`, modelled as a finite list of key/value bindings;
the `instance` field is renamed `instance_` because `instance` is a Lean
keyword. -/
structure ProblemDetails where
  type : String
  title : String
  status : Int
  code : String
  detail : Option String
  context : Option (List (String × JsValue))
  instance_ : Option String
  requestId : String
  retryable : Option Bool

/-- `Partial<ProblemDetails>`: the argument type of `toProblem`, every
field optional. -/
structure ProblemFields where
  type : Option String := none
  title : Option String := none
  status : Option Int := none
  code : Option String := none
  detail : Option String := none
  context : Option (List (String × JsValue)) := none
  instance_ : Option String := none
  requestId : Option String := none
  retryable : Option Bool := none

/-- The fields the spread `{...meta}` contributes to the object passed to
`toProblem`: an own catalog row spreads its own enumerable properties
(`status`, `title`, `type`, and `retryable` if set); an inherited
prototype member is a function (or `Object.prototype`) with no own
enumerable properties and spreads nothing. -/
def spreadFields : MemberLookup → ProblemFields
  | .row en => { type := some en.type, title := some en.title,
                 status := some en.status, retryable := en.retryable }
  | .inherited => {}
  | .missing => {}

/-- `toProblem` from `problem-details.ts`: fills every defaulted field with
`??` (which fires on `undefined`, modelled by `none`) and passes the
pass-through fields unchanged. -/
def toProblem (p : ProblemFields) : ProblemDetails :=
  { type := p.type.getD "/catalog/internal"
    title := p.title.getD "Internal Server Error"
    status := p.status.getD 500
    code := p.code.getD "INTERNAL_ERROR"
    detail := p.detail
    context := p.context
    instance_ := p.instance_
    requestId := p.requestId.getD "unknown"
    retryable := some (p.retryable.getD false) }

/-- The `DomainError` shape accepted by `mapDomainError`
(`{ code: string; message: string; context?: any }`), matching the
`DomainError` base class of the error best-practices document:
`message`, a stable string `code`, and an optional safe `context`. -/
structure DomainError where
  message : String
  code : String
  context : Option (List (String × JsValue))

/-- `mapDomainError` from `domain-to-problem.mapper.ts` at its declared
signature: resolve the member (prototype chain included), then `toProblem`
on the spread of that member overridden with the failure's own `code`,
`detail` (its message), `context`, the request id and the instance. -/
def mapDomainError (e : DomainError) (reqId : String) (inst : Option String) :
    ProblemDetails :=
  let meta := spreadFields (resolveMember e.code)
  toProblem
    { type := meta.type
      title := meta.title
      status := meta.status
      retryable := meta.retryable
      code := some e.code
      detail := some e.message
      context := e.context
      requestId := some reqId
      instance_ := inst }

/-- `mapDomainError` as invoked by the exception filter, where the caught
value is `any`: the guard guarantees `code` is a string, but `message` and
`context` are arbitrary runtime values copied verbatim into the object that
`toProblem` returns.  Keys appear in the order `toProblem` writes them. -/
def mapDomainErrorJs (code : String) (message context : JsValue)
    (reqId : String) (inst : String) : JsValue :=
  let meta := spreadFields (resolveMember code)
  .obj [("type", .str (meta.type.getD "/catalog/internal")),
        ("title", .str (meta.title.getD "Internal Server Error")),
        ("status", .num (meta.status.getD 500)),
        ("code", .str code),
        ("detail", message),
        ("context", context),
        ("instance", .str inst),
        ("requestId", .str reqId),
        ("retryable", .bool (meta.retryable.getD false))]

/-- The request-id line of `ProblemExceptionFilter.catch`:
`(request.headers["x-request-id"] as string) || crypto.randomUUID()`.
The header is `none` when absent; `||` falls through on the empty string.
The value `crypto.randomUUID()` would produce is passed in as
`generated`. -/
def chooseRequestId (header : Option String) (generated : String) : String :=
  match header with
  | some s => if s = "" then generated else s
  | none => generated

/-- `ProblemExceptionFilter.catch` from `problem.exception-filter.ts`,
restricted to the envelope it replies with.  `exception` is the caught
value (of type `any`), `header` the `x-request-id` request header,
`generated` the fresh UUID that `crypto.randomUUID()` would return, and
`url` the request URL used as `instance`.
Branch 1: `exception?.code && typeof exception.code === "string"` sends the
value through `mapDomainError`.  Branch 2: a `BadRequestException` with a
truthy `response.message` becomes the fixed `VALIDATION_FAILED` envelope
whose `context` is `{ fields: exception["response"].message }`.  Branch 3:
everything else becomes the fixed `INTERNAL_ERROR` envelope, which copies
nothing from the exception. -/
def filterCatch (exception : JsValue) (header : Option String)
    (generated : String) (url : String) : JsValue :=
  if truthy (getField exception "code") && isStringV (getField exception "code") then
    mapDomainErrorJs (asString (getField exception "code"))
      (getField exception "message") (getField exception "context")
      (chooseRequestId header generated) url
  else if strictEqStr (getField exception "name") "BadRequestException"
      && truthy (getField (getField exception "response") "message") then
    .obj [("type", .str "/catalog/validation/failed"),
          ("title", .str "Invalid input"),
          ("status", .num 400),
          ("code", .str "VALIDATION_FAILED"),
          ("detail", .str "One or more fields are invalid."),
          ("context", .obj [("fields",
              getField (getField exception "response") "message")]),
          ("requestId", .str (chooseRequestId header generated)),
          ("instance", .str url),
          ("retryable", .bool false)]
  else
    .obj [("type", .str "/catalog/internal"),
          ("title", .str "Internal Server Error"),
          ("status", .num 500),
          ("code", .str "INTERNAL_ERROR"),
          ("detail", .str "An unexpected error occurred."),
          ("requestId", .str (chooseRequestId header generated)),
          ("instance", .str url),
          ("retryable", .bool false)]

/-- A character allowed in a URL scheme after the first (ASCII alpha,
digit, `+`, `-` or `.`). -/
def isSchemeChar (c : Char) : Bool :=
  c.isAlpha || c.isDigit || c == '+' || c == '-' || c == '.'

/-- Models the `z.string().url()` check of zod (which accepts exactly the
strings the WHATWG `URL` constructor accepts), by its scheme condition: a
URL must start with an ASCII-alpha character, continue with scheme
characters, and reach a colon.  This is a necessary condition on WHATWG
URLs, and every string the pipeline feeds to this branch of the schema is
settled by it together with the `startsWith("/")` alternative. -/
def isUrlString (s : String) : Bool :=
  match s.data with
  | [] => false
  | c :: rest =>
      c.isAlpha && rest.contains ':' &&
      (rest.takeWhile (fun d => d != ':')).all isSchemeChar

/-- `z.string().startsWith("/")`: the first character is a slash.
(Stated over the character list because the byte-level core
`String.startsWith` does not reduce inside the kernel.) -/
def startsWithSlash (s : String) : Bool :=
  match s.data with
  | c :: _ => c == '/'
  | [] => false

/-- The `type` field check of `ProblemDetailsSchema`:
`z.string().url().or(z.string().startsWith("/"))`. -/
def typeFieldOk : JsValue → Bool
  | .str s => isUrlString s || startsWithSlash s
  | _ => false

/-- `z.number().int()`: the value is a number (integral by the integer
model of numbers). -/
def isIntV : JsValue → Bool
  | .num _ => true
  | _ => false

/-- `z.boolean()`. -/
def isBoolV : JsValue → Bool
  | .bool _ => true
  | _ => false

/-- `z.record(z.unknown())`: a plain object (zod rejects arrays and null
here). -/
def isRecordV : JsValue → Bool
  | .obj _ => true
  | _ => false

/-- Whether a value is `undefined`. -/
def isUndefV : JsValue → Bool
  | .undefined => true
  | _ => false

/-- `.optional()`: the field may be `undefined` (in particular absent),
otherwise the underlying check applies. -/
def optionalOk (check : JsValue → Bool) (v : JsValue) : Bool :=
  isUndefV v || check v

/-- `ProblemDetailsSchema.safeParse(data).success` from
`problem-details.type.ts`: the candidate must be a plain object whose
fields satisfy the zod object schema field by field. -/
def problemDetailsCheck (data : JsValue) : Bool :=
  match data with
  | .obj _ =>
      typeFieldOk (getField data "type") &&
      isStringV (getField data "title") &&
      isIntV (getField data "status") &&
      isStringV (getField data "code") &&
      optionalOk isStringV (getField data "detail") &&
      optionalOk isRecordV (getField data "context") &&
      optionalOk isStringV (getField data "instance") &&
      isStringV (getField data "requestId") &&
      optionalOk isBoolV (getField data "retryable") &&
      true
  | _ => false

/-- The JSON object a typed `ProblemDetails` value denotes: exactly the
keys the `toProblem` object literal writes, optional fields holding
`undefined` when unset (the literal writes the key either way). -/
def ProblemDetails.toJs (p : ProblemDetails) : JsValue :=
  .obj [("type", .str p.type),
        ("title", .str p.title),
        ("status", .num p.status),
        ("code", .str p.code),
        ("detail", (p.detail.map .str).getD .undefined),
        ("context", (p.context.map .obj).getD .undefined),
        ("instance", (p.instance_.map .str).getD .undefined),
        ("requestId", .str p.requestId),
        ("retryable", (p.retryable.map .bool).getD .undefined)]

end PetProject

namespace PetProject

/-! ### Shared lemmas -/

/-- Every own row of the catalog has a `type` beginning with a slash. -/
theorem catalog_row_type_slash (c : String) (en : CatalogEntry)
    (h : ErrorCatalog c = some en) : startsWithSlash en.type = true := by
  unfold ErrorCatalog at h
  split at h <;> simp_all <;> subst h <;> rfl

/-- Whatever the member lookup returns, the `type` reaching the envelope
(the spread field or, when the spread contributed nothing, the
`toProblem` default) begins with a slash. -/
theorem mapped_type_slash (c : String) :
    startsWithSlash ((spreadFields (resolveMember c)).type.getD
      "/catalog/internal") = true := by
  rcases hR : ErrorCatalog c with _ | en
  · by_cases hm : c ∈ objectPrototypeKeys <;>
      simp [resolveMember, catalogMember, hR, hm, spreadFields] <;> rfl
  · have ht := catalog_row_type_slash c en hR
    simp [resolveMember, catalogMember, hR, spreadFields, ht]

end PetProject

namespace PetProject

/-! ### C1 — mapDomainError preserves code, message, context, request id -/

/-- C1: for every domain error value `e` carrying a string code, message,
and optional context, and every supplied correlation id `r`, translating
`e` with `mapDomainError` returns an envelope whose `code` equals
`e.code`, whose `detail` equals `e.message`, whose `context` equals
`e.context`, and whose `requestId` equals `r`. -/
theorem c1_map_domain_error_fields (e : DomainError) (r : String)
    (inst : Option String) :
    (mapDomainError e r inst).code = e.code ∧
    (mapDomainError e r inst).detail = some e.message ∧
    (mapDomainError e r inst).context = e.context ∧
    (mapDomainError e r inst).requestId = r := by
  simp [mapDomainError, toProblem]

/-! ### C2 — catalog resolution and the prototype chain -/

/-- Counterexample to C2 as stated: the string `toString` is absent from
the catalog (no own row), yet resolution does not return the
`INTERNAL_ERROR` entry — the bracket lookup finds the inherited, truthy
`Object.prototype.toString`, so the `??` fallback never fires. -/
theorem c2_counterexample :
    ErrorCatalog "toString" = none ∧
    resolveMember "toString" = .inherited ∧
    resolveMember "toString" ≠ .row INTERNAL_ERROR_entry :=
  ⟨rfl, rfl, by decide⟩

/-- C2 (amended): for every string code, a registered code resolves to
its own catalog row; a string that is neither registered nor the name of
an inherited `Object.prototype` member resolves to the catalog's
`INTERNAL_ERROR` row; an inherited member name resolves to the inherited
member itself (it is truthy and not nullish, so the `??` fallback does
not fire).  Resolution is a total function, so it never fails or
throws. -/
theorem c2_resolve_prototype_aware (c : String) :
    (∀ en, ErrorCatalog c = some en → resolveMember c = .row en) ∧
    (ErrorCatalog c = none → c ∉ objectPrototypeKeys →
      resolveMember c = .row INTERNAL_ERROR_entry) ∧
    (ErrorCatalog c = none → c ∈ objectPrototypeKeys →
      resolveMember c = .inherited) := by
  refine ⟨fun en h => ?_, fun h hm => ?_, fun h hm => ?_⟩
  · simp [resolveMember, catalogMember, h]
  · simp [resolveMember, catalogMember, h, hm]
  · simp [resolveMember, catalogMember, h, hm]

/-- Witness for C2 (amended) at a registered code, an unregistered
non-prototype code, and a prototype member name. -/
theorem c2_resolve_prototype_aware_witness :
    resolveMember "PRODUCT_NOT_FOUND" =
      .row { status := 404, title := "Product not found",
             type := "/catalog/products/not-found", retryable := none } ∧
    resolveMember "NOT_IN_REGISTRY" = .row INTERNAL_ERROR_entry ∧
    resolveMember "valueOf" = .inherited :=
  ⟨(c2_resolve_prototype_aware "PRODUCT_NOT_FOUND").1 _ rfl,
   (c2_resolve_prototype_aware "NOT_IN_REGISTRY").2.1 rfl (by decide),
   (c2_resolve_prototype_aware "valueOf").2.2 rfl (by decide)⟩

/-! ### C9 — toProblem always defines retryable -/

/-- C9: every envelope built by `toProblem` carries a defined boolean
`retryable` field: equal to the supplied value when one is given, and
`false` when none is supplied; produced envelopes never omit `retryable`
even though the `ProblemDetails` wire type declares it optional. -/
theorem c9_to_problem_retryable_defined (p : ProblemFields) :
    (toProblem p).retryable = some (p.retryable.getD false) ∧
    (∀ b, p.retryable = some b → (toProblem p).retryable = some b) ∧
    (p.retryable = none → (toProblem p).retryable = some false) ∧
    (toProblem p).retryable ≠ none := by
  refine ⟨rfl, fun b hb => ?_, fun hn => ?_, ?_⟩ <;> simp [toProblem, *]

/-- Witness for C9 with a supplied and with an omitted `retryable`. -/
theorem c9_to_problem_retryable_defined_witness :
    (toProblem { retryable := some true }).retryable = some true ∧
    (toProblem {}).retryable = some false :=
  ⟨(c9_to_problem_retryable_defined { retryable := some true }).2.1 true rfl,
   (c9_to_problem_retryable_defined {}).2.2.1 rfl⟩

end PetProject

namespace PetProject

/-! ### C10 — the validator is stricter than a primitive-kind check -/

/-- A candidate envelope whose required fields are all present with the
right primitive kinds, but whose `type` has no URL scheme and does not
begin with a slash. -/
def typeNotUrlCandidate : JsValue :=
  .obj [("type", .str "not-a-url"), ("title", .str "t"),
        ("status", .num 500), ("code", .str "X"), ("requestId", .str "r")]

/-- C10: the envelope validator is stricter than a primitive-kind check on
the `type` field: `typeNotUrlCandidate` has every required field present
and of the right primitive kind, yet validation rejects it because its
`type` string is neither a well-formed URL nor begins with a slash. -/
theorem c10_type_check_stricter_than_kinds :
    isStringV (getField typeNotUrlCandidate "type") = true ∧
    isStringV (getField typeNotUrlCandidate "title") = true ∧
    isIntV (getField typeNotUrlCandidate "status") = true ∧
    isStringV (getField typeNotUrlCandidate "code") = true ∧
    isStringV (getField typeNotUrlCandidate "requestId") = true ∧
    optionalOk isStringV (getField typeNotUrlCandidate "detail") = true ∧
    optionalOk isRecordV (getField typeNotUrlCandidate "context") = true ∧
    optionalOk isStringV (getField typeNotUrlCandidate "instance") = true ∧
    optionalOk isBoolV (getField typeNotUrlCandidate "retryable") = true ∧
    isUrlString "not-a-url" = false ∧
    startsWithSlash "not-a-url" = false ∧
    problemDetailsCheck typeNotUrlCandidate = false := by
  decide

end PetProject
namespace PetProject

/-! ### C7 — validator round-trip -/

/-- C7: every envelope produced by the domain-error translator is accepted
by the envelope validator, and every candidate envelope missing any one of
the required fields `code`, `status`, `title`, `type` or `requestId` is
rejected by the validator. -/
theorem c7_validator_roundtrip :
    (∀ (e : DomainError) (r : String) (inst : Option String),
        problemDetailsCheck (ProblemDetails.toJs (mapDomainError e r inst)) = true) ∧
    (∀ d : JsValue,
        (getField d "code" = .undefined ∨ getField d "status" = .undefined ∨
         getField d "title" = .undefined ∨ getField d "type" = .undefined ∨
         getField d "requestId" = .undefined) →
        problemDetailsCheck d = false) := by
  constructor
  · intro e r inst
    have ht := mapped_type_slash e.code
    cases hc : e.context <;> cases hi : inst <;>
      simp [mapDomainError, toProblem, ProblemDetails.toJs, problemDetailsCheck,
            getField, typeFieldOk, isStringV, isIntV, isBoolV, isRecordV,
            isUndefV, optionalOk, ht, hc, hi]
  · intro d hd
    cases d with
    | obj fs =>
        rcases hd with h | h | h | h | h <;>
          simp [problemDetailsCheck, h, typeFieldOk, isStringV, isIntV,
            isUndefV, optionalOk]
    | undefined => rfl
    | nullv => rfl
    | bool b => rfl
    | num n => rfl
    | str s => rfl
    | arr xs => rfl

/-- Witness for C7: a concrete translated envelope is accepted, and a
concrete candidate with no `code` field is rejected. -/
theorem c7_validator_roundtrip_witness :
    problemDetailsCheck (ProblemDetails.toJs
      (mapDomainError ⟨"Product not found.", "PRODUCT_NOT_FOUND",
        some [("productId", .str "abc")]⟩ "req-1" (some "/products/abc"))) = true ∧
    problemDetailsCheck (.obj [("status", .num 500)]) = false :=
  ⟨c7_validator_roundtrip.1 _ "req-1" (some "/products/abc"),
   c7_validator_roundtrip.2 _ (Or.inl rfl)⟩

end PetProject
namespace PetProject

/-! ### Branch characterizations of the exception filter -/

/-- Branch 1 of the filter: a non-empty string `code` routes the exception
through `mapDomainError`. -/
theorem filterCatch_coded (f : JsValue) (hdr : Option String) (gen url s : String)
    (hc : getField f "code" = .str s) (hs : s ≠ "") :
    filterCatch f hdr gen url =
      mapDomainErrorJs s (getField f "message") (getField f "context")
        (chooseRequestId hdr gen) url := by
  simp [filterCatch, hc, truthy, isStringV, asString, hs]

/-- Branch 2 of the filter: no string code, but a `BadRequestException`
with a truthy `response.message` produces the fixed validation envelope. -/
theorem filterCatch_validation (f : JsValue) (hdr : Option String) (gen url : String)
    (hcode : (truthy (getField f "code") && isStringV (getField f "code")) = false)
    (hname : strictEqStr (getField f "name") "BadRequestException" = true)
    (hmsg : truthy (getField (getField f "response") "message") = true) :
    filterCatch f hdr gen url =
      .obj [("type", .str "/catalog/validation/failed"),
            ("title", .str "Invalid input"),
            ("status", .num 400),
            ("code", .str "VALIDATION_FAILED"),
            ("detail", .str "One or more fields are invalid."),
            ("context", .obj [("fields",
                getField (getField f "response") "message")]),
            ("requestId", .str (chooseRequestId hdr gen)),
            ("instance", .str url),
            ("retryable", .bool false)] := by
  simp [filterCatch, hcode, hname, hmsg]

/-- Branch 3 of the filter: no string code and not a validation failure
produces the fixed internal-error envelope, which copies nothing from the
exception. -/
theorem filterCatch_unknown (f : JsValue) (hdr : Option String) (gen url : String)
    (hcode : (truthy (getField f "code") && isStringV (getField f "code")) = false)
    (hval : (strictEqStr (getField f "name") "BadRequestException"
        && truthy (getField (getField f "response") "message")) = false) :
    filterCatch f hdr gen url =
      .obj [("type", .str "/catalog/internal"),
            ("title", .str "Internal Server Error"),
            ("status", .num 500),
            ("code", .str "INTERNAL_ERROR"),
            ("detail", .str "An unexpected error occurred."),
            ("requestId", .str (chooseRequestId hdr gen)),
            ("instance", .str url),
            ("retryable", .bool false)] := by
  simp [filterCatch, hcode, hval]

/-! ### Field lookups on the envelopes the filter builds -/

theorem getField_mapJs_type (c : String) (m ctx : JsValue) (r i : String) :
    getField (mapDomainErrorJs c m ctx r i) "type"
      = .str ((spreadFields (resolveMember c)).type.getD
          "/catalog/internal") := rfl

theorem getField_mapJs_title (c : String) (m ctx : JsValue) (r i : String) :
    getField (mapDomainErrorJs c m ctx r i) "title"
      = .str ((spreadFields (resolveMember c)).title.getD
          "Internal Server Error") := rfl

theorem getField_mapJs_status (c : String) (m ctx : JsValue) (r i : String) :
    getField (mapDomainErrorJs c m ctx r i) "status"
      = .num ((spreadFields (resolveMember c)).status.getD 500) := rfl

theorem getField_mapJs_code (c : String) (m ctx : JsValue) (r i : String) :
    getField (mapDomainErrorJs c m ctx r i) "code" = .str c := rfl

theorem getField_mapJs_detail (c : String) (m ctx : JsValue) (r i : String) :
    getField (mapDomainErrorJs c m ctx r i) "detail" = m := rfl

theorem getField_mapJs_context (c : String) (m ctx : JsValue) (r i : String) :
    getField (mapDomainErrorJs c m ctx r i) "context" = ctx := rfl

theorem getField_mapJs_requestId (c : String) (m ctx : JsValue) (r i : String) :
    getField (mapDomainErrorJs c m ctx r i) "requestId" = .str r := rfl

theorem getField_mapJs_retryable (c : String) (m ctx : JsValue) (r i : String) :
    getField (mapDomainErrorJs c m ctx r i) "retryable"
      = .bool ((spreadFields (resolveMember c)).retryable.getD false) := rfl

end PetProject
namespace PetProject

/-! ### C3 — non-coded failures and the internal fallback -/

/-- A failure with no `code` field that the filter nevertheless does not
send to the internal fallback: a `BadRequestException` carrying
validation messages. -/
def badRequestExc : JsValue :=
  .obj [("name", .str "BadRequestException"),
        ("response", .obj [("message", .arr [.str "name must be a string"])])]

/-- Counterexample to C3 as stated: `badRequestExc` exposes no string
`code` field, yet the filter translates it to an envelope with code
`VALIDATION_FAILED` and status 400, not `INTERNAL_ERROR` with status
500. -/
theorem c3_counterexample :
    isStringV (getField badRequestExc "code") = false ∧
    getField (filterCatch badRequestExc none "uuid-1" "/clients") "code"
      = .str "VALIDATION_FAILED" ∧
    getField (filterCatch badRequestExc none "uuid-1" "/clients") "status"
      = .num 400 ∧
    ("VALIDATION_FAILED" : String) ≠ "INTERNAL_ERROR" ∧ (400 : Int) ≠ 500 :=
  ⟨rfl, rfl, rfl, by decide, by decide⟩

/-- C3 (amended): for every failure value that exposes no string `code`
field and is not recognized as a validation failure (name
`BadRequestException` with a truthy `response.message`), the filter
returns the fixed internal-error envelope — code `INTERNAL_ERROR`, status
500, the fixed generic detail — and, since the right-hand side mentions
only the correlation inputs, no envelope field carries the failure's
message or stack text. -/
theorem c3_internal_fallback (f : JsValue) (hdr : Option String)
    (gen url : String)
    (hcode : isStringV (getField f "code") = false)
    (hval : (strictEqStr (getField f "name") "BadRequestException"
        && truthy (getField (getField f "response") "message")) = false) :
    filterCatch f hdr gen url =
      .obj [("type", .str "/catalog/internal"),
            ("title", .str "Internal Server Error"),
            ("status", .num 500),
            ("code", .str "INTERNAL_ERROR"),
            ("detail", .str "An unexpected error occurred."),
            ("requestId", .str (chooseRequestId hdr gen)),
            ("instance", .str url),
            ("retryable", .bool false)] := by
  apply filterCatch_unknown f hdr gen url ?_ hval
  simp [hcode]

/-- Witness for C3 (amended) at a failure carrying only message and stack
text. -/
theorem c3_internal_fallback_witness :
    isStringV (getField (JsValue.obj
      [("message", .str "secret detail"), ("stack", .str "at main.ts:1")])
      "code") = false ∧
    filterCatch (JsValue.obj
        [("message", .str "secret detail"), ("stack", .str "at main.ts:1")])
        (some "req-9") "uuid-3" "/pets" =
      .obj [("type", .str "/catalog/internal"),
            ("title", .str "Internal Server Error"),
            ("status", .num 500),
            ("code", .str "INTERNAL_ERROR"),
            ("detail", .str "An unexpected error occurred."),
            ("requestId", .str "req-9"),
            ("instance", .str "/pets"),
            ("retryable", .bool false)] :=
  ⟨rfl, c3_internal_fallback _ _ _ _ rfl rfl⟩

/-! ### C4 — unregistered codes travel, classification degrades -/

/-- C4: a failure carrying a non-empty string code absent from the
catalog produces an envelope whose `code` is that unregistered code taken
from the failure itself, while `status`, `title`, `type` and `retryable`
come from the catalog's `INTERNAL_ERROR` row (status 500, generic
title). -/
theorem c4_unregistered_code_traceable (f : JsValue) (hdr : Option String)
    (gen url c : String) (hc : getField f "code" = .str c) (hne : c ≠ "")
    (habs : ErrorCatalog c = none) :
    getField (filterCatch f hdr gen url) "code" = .str c ∧
    getField (filterCatch f hdr gen url) "status"
      = .num INTERNAL_ERROR_entry.status ∧
    getField (filterCatch f hdr gen url) "title"
      = .str INTERNAL_ERROR_entry.title ∧
    getField (filterCatch f hdr gen url) "type"
      = .str INTERNAL_ERROR_entry.type ∧
    getField (filterCatch f hdr gen url) "retryable"
      = .bool (INTERNAL_ERROR_entry.retryable.getD false) ∧
    INTERNAL_ERROR_entry.status = 500 ∧
    INTERNAL_ERROR_entry.title = "Internal Server Error" := by
  rw [filterCatch_coded f hdr gen url c hc hne]
  refine ⟨getField_mapJs_code .., ?_, ?_, ?_, ?_, rfl, rfl⟩ <;>
    by_cases hm : c ∈ objectPrototypeKeys <;>
      simp [getField_mapJs_status, getField_mapJs_title, getField_mapJs_type,
            getField_mapJs_retryable, resolveMember, catalogMember, habs, hm,
            spreadFields, INTERNAL_ERROR_entry]

/-- Witness for C4 at the unregistered code `NOT_IN_REGISTRY`. -/
theorem c4_unregistered_code_traceable_witness :
    getField (JsValue.obj [("code", .str "NOT_IN_REGISTRY"),
        ("message", .str "weird")]) "code" = .str "NOT_IN_REGISTRY" ∧
    ("NOT_IN_REGISTRY" : String) ≠ "" ∧
    ErrorCatalog "NOT_IN_REGISTRY" = none ∧
    getField (filterCatch (JsValue.obj [("code", .str "NOT_IN_REGISTRY"),
        ("message", .str "weird")]) (some "req-5") "uuid-5" "/vets") "code"
      = .str "NOT_IN_REGISTRY" ∧
    getField (filterCatch (JsValue.obj [("code", .str "NOT_IN_REGISTRY"),
        ("message", .str "weird")]) (some "req-5") "uuid-5" "/vets") "status"
      = .num INTERNAL_ERROR_entry.status :=
  ⟨rfl, by decide, rfl,
   (c4_unregistered_code_traceable
      (JsValue.obj [("code", .str "NOT_IN_REGISTRY"), ("message", .str "weird")])
      (some "req-5") "uuid-5" "/vets" "NOT_IN_REGISTRY" rfl (by decide) rfl).1,
   (c4_unregistered_code_traceable
      (JsValue.obj [("code", .str "NOT_IN_REGISTRY"), ("message", .str "weird")])
      (some "req-5") "uuid-5" "/vets" "NOT_IN_REGISTRY" rfl (by decide) rfl).2.1⟩

/-! ### C5 — the request id is always present and non-empty -/

/-- C5: every envelope the filter emits carries the request id computed
from the `x-request-id` header and the freshly generated UUID; that id is
non-empty whenever the generated UUID is (which `crypto.randomUUID`
guarantees), equals the supplied correlation id when one is supplied
non-empty, and equals the generated identifier when the header is
absent. -/
theorem c5_request_id_present (f : JsValue) (hdr : Option String)
    (gen url : String) (hgen : gen ≠ "") :
    getField (filterCatch f hdr gen url) "requestId"
      = .str (chooseRequestId hdr gen) ∧
    chooseRequestId hdr gen ≠ "" ∧
    (∀ s, hdr = some s → s ≠ "" → chooseRequestId hdr gen = s) ∧
    (hdr = none → chooseRequestId hdr gen = gen) := by
  refine ⟨?_, ?_, ?_, ?_⟩
  · unfold filterCatch
    split
    · exact getField_mapJs_requestId _ _ _ _ _
    · split <;> rfl
  · cases hdr with
    | none => simpa [chooseRequestId] using hgen
    | some s => by_cases h : s = "" <;> simp [chooseRequestId, h, hgen]
  · intro s hs hne
    subst hs
    simp [chooseRequestId, hne]
  · intro h
    subst h
    rfl

/-- Witness for C5 with a supplied header and with an absent header. -/
theorem c5_request_id_present_witness :
    getField (filterCatch (JsValue.str "boom") (some "req-7") "uuid-7" "/x")
      "requestId" = .str (chooseRequestId (some "req-7") "uuid-7") ∧
    chooseRequestId (some "req-7") "uuid-7" = "req-7" ∧
    chooseRequestId none "uuid-7" = "uuid-7" :=
  ⟨(c5_request_id_present (JsValue.str "boom") (some "req-7") "uuid-7" "/x"
      (by decide)).1,
   (c5_request_id_present (JsValue.str "boom") (some "req-7") "uuid-7" "/x"
      (by decide)).2.2.1 "req-7" rfl (by decide),
   (c5_request_id_present (JsValue.str "boom") none "uuid-7" "/x"
      (by decide)).2.2.2 rfl⟩

/-! ### C8 — validation failures get the fixed classification -/

/-- C8: every failure the filter recognizes as a structural validation
failure (no string code, name `BadRequestException`, truthy
`response.message`) is translated to the fixed `VALIDATION_FAILED`
classification with a client-error status and a context carrying the list
of offending fields. -/
theorem c8_validation_failure_envelope (f : JsValue) (hdr : Option String)
    (gen url : String)
    (hcode : (truthy (getField f "code") && isStringV (getField f "code"))
      = false)
    (hname : strictEqStr (getField f "name") "BadRequestException" = true)
    (hmsg : truthy (getField (getField f "response") "message") = true) :
    getField (filterCatch f hdr gen url) "code" = .str "VALIDATION_FAILED" ∧
    getField (filterCatch f hdr gen url) "type"
      = .str "/catalog/validation/failed" ∧
    getField (filterCatch f hdr gen url) "title" = .str "Invalid input" ∧
    (∃ n : Int, getField (filterCatch f hdr gen url) "status" = .num n ∧
      400 ≤ n ∧ n < 500) ∧
    getField (filterCatch f hdr gen url) "context"
      = .obj [("fields", getField (getField f "response") "message")] := by
  rw [filterCatch_validation f hdr gen url hcode hname hmsg]
  exact ⟨rfl, rfl, rfl, ⟨400, rfl, by decide, by decide⟩, rfl⟩

/-- Witness for C8 at a concrete ValidationPipe failure. -/
theorem c8_validation_failure_envelope_witness :
    getField (filterCatch (JsValue.obj [("name", .str "BadRequestException"),
        ("response", .obj [("message", .arr [.str "age must be a number"])])])
        (some "req-2") "uuid-4" "/owners") "code" = .str "VALIDATION_FAILED" ∧
    getField (filterCatch (JsValue.obj [("name", .str "BadRequestException"),
        ("response", .obj [("message", .arr [.str "age must be a number"])])])
        (some "req-2") "uuid-4" "/owners") "context"
      = .obj [("fields", .arr [.str "age must be a number"])] :=
  ⟨(c8_validation_failure_envelope
      (JsValue.obj [("name", .str "BadRequestException"),
        ("response", .obj [("message", .arr [.str "age must be a number"])])])
      (some "req-2") "uuid-4" "/owners" rfl rfl rfl).1,
   (c8_validation_failure_envelope
      (JsValue.obj [("name", .str "BadRequestException"),
        ("response", .obj [("message", .arr [.str "age must be a number"])])])
      (some "req-2") "uuid-4" "/owners" rfl rfl rfl).2.2.2.2⟩

end PetProject
namespace PetProject

/-! ### C6 — totality of the boundary translation -/

/-- A value passing the optional-string check is undefined or a string. -/
theorem optional_string_cases (m : JsValue)
    (hm : optionalOk isStringV m = true) :
    m = .undefined ∨ ∃ s, m = .str s := by
  cases m <;> simp_all [optionalOk, isUndefV, isStringV]

/-- A value passing the optional-record check is undefined or an object. -/
theorem optional_record_cases (ctx : JsValue)
    (hctx : optionalOk isRecordV ctx = true) :
    ctx = .undefined ∨ ∃ fs, ctx = .obj fs := by
  cases ctx <;> simp_all [optionalOk, isUndefV, isRecordV]

/-- The envelope built for a coded failure is schema-valid as long as the
failure's `message` is a string or undefined and its `context` a plain
object or undefined. -/
theorem problemCheck_mapJs (c : String) (m ctx : JsValue) (r i : String)
    (hm : optionalOk isStringV m = true)
    (hctx : optionalOk isRecordV ctx = true) :
    problemDetailsCheck (mapDomainErrorJs c m ctx r i) = true := by
  have ht := mapped_type_slash c
  rcases optional_string_cases m hm with hm2 | ⟨s, hm2⟩ <;>
    rcases optional_record_cases ctx hctx with hc2 | ⟨fs, hc2⟩ <;>
      subst hm2 <;> subst hc2 <;>
        simp [mapDomainErrorJs, problemDetailsCheck, getField, typeFieldOk,
          isStringV, isIntV, isBoolV, isRecordV, isUndefV, optionalOk, ht]

/-- The fixed validation envelope is schema-valid for any `fields`
payload. -/
theorem problemCheck_validation_envelope (msg : JsValue) (r i : String) :
    problemDetailsCheck
      (.obj [("type", .str "/catalog/validation/failed"),
             ("title", .str "Invalid input"),
             ("status", .num 400),
             ("code", .str "VALIDATION_FAILED"),
             ("detail", .str "One or more fields are invalid."),
             ("context", .obj [("fields", msg)]),
             ("requestId", .str r),
             ("instance", .str i),
             ("retryable", .bool false)]) = true := rfl

/-- The fixed internal envelope is schema-valid. -/
theorem problemCheck_internal_envelope (r i : String) :
    problemDetailsCheck
      (.obj [("type", .str "/catalog/internal"),
             ("title", .str "Internal Server Error"),
             ("status", .num 500),
             ("code", .str "INTERNAL_ERROR"),
             ("detail", .str "An unexpected error occurred."),
             ("requestId", .str r),
             ("instance", .str i),
             ("retryable", .bool false)]) = true := rfl

/-- A coded failure whose `message` is not a string: the filter copies the
number 42 into `detail`. -/
def codedNonStringMessage : JsValue :=
  .obj [("code", .str "X"), ("message", .num 42)]

/-- Counterexample to C6 as stated: on `codedNonStringMessage` the filter
returns an envelope the validator rejects (its `detail` is the number
taken from the failure's `message`), so the translation does not return a
valid envelope for every input shape. -/
theorem c6_counterexample :
    problemDetailsCheck
      (filterCatch codedNonStringMessage none "uuid-2" "/clients") = false ∧
    getField (filterCatch codedNonStringMessage none "uuid-2" "/clients")
      "detail" = .num 42 := by
  exact ⟨by decide, rfl⟩

/-- C6 (amended): the boundary translation is total and never throws — it
returns an envelope for every input value — and the envelope is valid for
every failure that, when it carries a string code, has a string-or-absent
`message` and a plain-object-or-absent `context`; in particular for every
validation failure and every non-coded failure of any shape. -/
theorem c6_translation_total (f : JsValue) (hdr : Option String)
    (gen url : String)
    (h : isStringV (getField f "code") = true →
        optionalOk isStringV (getField f "message") = true ∧
        optionalOk isRecordV (getField f "context") = true) :
    problemDetailsCheck (filterCatch f hdr gen url) = true := by
  by_cases hc : (truthy (getField f "code") && isStringV (getField f "code"))
      = true
  · rw [Bool.and_eq_true] at hc
    obtain ⟨hct, hcs⟩ := hc
    obtain ⟨hm, hctx⟩ := h hcs
    cases hcv : getField f "code" with
    | str s =>
        have hs : s ≠ "" := by
          rw [hcv] at hct
          simpa [truthy] using hct
        rw [filterCatch_coded f hdr gen url s hcv hs]
        exact problemCheck_mapJs s _ _ _ _ hm hctx
    | undefined => rw [hcv] at hcs; simp [isStringV] at hcs
    | nullv => rw [hcv] at hcs; simp [isStringV] at hcs
    | bool b => rw [hcv] at hcs; simp [isStringV] at hcs
    | num n => rw [hcv] at hcs; simp [isStringV] at hcs
    | arr xs => rw [hcv] at hcs; simp [isStringV] at hcs
    | obj fs => rw [hcv] at hcs; simp [isStringV] at hcs
  · have hc' : (truthy (getField f "code") && isStringV (getField f "code"))
        = false := Bool.eq_false_iff.mpr hc
    by_cases hv : (strictEqStr (getField f "name") "BadRequestException"
        && truthy (getField (getField f "response") "message")) = true
    · rw [Bool.and_eq_true] at hv
      obtain ⟨hn, hm2⟩ := hv
      rw [filterCatch_validation f hdr gen url hc' hn hm2]
      exact problemCheck_validation_envelope _ _ _
    · have hv' : (strictEqStr (getField f "name") "BadRequestException"
          && truthy (getField (getField f "response") "message")) = false :=
        Bool.eq_false_iff.mpr hv
      rw [filterCatch_unknown f hdr gen url hc' hv']
      exact problemCheck_internal_envelope _ _

/-- Witness for C6 (amended) at a well-typed coded failure and at a plain
string failure. -/
theorem c6_translation_total_witness :
    problemDetailsCheck (filterCatch
      (JsValue.obj [("code", .str "PRODUCT_NOT_FOUND"),
        ("message", .str "Product not found."),
        ("context", .obj [("productId", .str "abc")])])
      (some "req-1") "uuid-6" "/products/abc") = true ∧
    problemDetailsCheck (filterCatch (JsValue.str "boom") none "uuid-6" "/x")
      = true :=
  ⟨c6_translation_total
      (JsValue.obj [("code", .str "PRODUCT_NOT_FOUND"),
        ("message", .str "Product not found."),
        ("context", .obj [("productId", .str "abc")])])
      (some "req-1") "uuid-6" "/products/abc" (fun _ => ⟨rfl, rfl⟩),
   c6_translation_total (JsValue.str "boom") none "uuid-6" "/x"
      (fun hx => by simp [getField, isStringV] at hx)⟩

end PetProject
